import Mathlib

/-!
A shallow embedding of the state-and-lookup core of the `virtue` chess engine:
the position's move generation and hash-key derivation (`src/board.rs`), the
two-slot transposition table (`src/transpositiontable.rs`), the history /
follow-up / move tables (`src/historytable.rs`), and the follow-up history
guards (`src/board/history.rs`).

The crate's `definitions.rs`, `chessmove.rs`, `lookups.rs`, `validate.rs` and
`movegen.rs` modules are not present in the sources; the encodings they supply
are modelled from the spec where a definition below says so.  Machine integers
are modelled as `Nat`/`Int` (no arithmetic in the embedded fragments can
overflow their 64-bit / 32-bit ranges at the inputs considered), and every
Rust code path that panics (out-of-bounds indexing, failed `unwrap`, the
`inconceivable!` marker) is modelled by an `Option` returning `none`.
-/

/-- The side-to-move encoding (`WHITE = 0`). -/
def WHITE : Nat := 0

/-- The side-to-move encoding (`BLACK = 1`). -/
def BLACK : Nat := 1

/-- Modelled from the spec: `definitions.rs` is missing. `Colour::Both`, the
third colour value used for empty cells. -/
def COLOUR_BOTH : Nat := 2

/-- Modelled from the spec: the guarded 10x12 board of spec section 3 has 120
cells (`BOARD_N_SQUARES`). -/
def BOARD_N_SQUARES : Nat := 120

/-- Modelled from the spec: the "no square" sentinel of the en-passant field.
`src/board.rs` names its value in the comment "epsq can be 99 as a default"
(`Square120::NoSquare = 99`). -/
def NO_SQUARE : Nat := 99

/-- Modelled from the spec: the off-board guard-border sentinel
(`Square120::OffBoard = 100`). -/
def OFF_BOARD : Nat := 100

/-- The empty-cell piece value (`Piece::Empty = 0`). -/
def PIECE_EMPTY : Nat := 0

/-- White pawn piece code. -/
def WP : Nat := 1

/-- White knight piece code. -/
def WN : Nat := 2

/-- White bishop piece code. -/
def WB : Nat := 3

/-- White rook piece code. -/
def WR : Nat := 4

/-- White queen piece code. -/
def WQ : Nat := 5

/-- White king piece code. -/
def WK : Nat := 6

/-- Black pawn piece code. -/
def BP : Nat := 7

/-- Black knight piece code. -/
def BN : Nat := 8

/-- Black bishop piece code. -/
def BB : Nat := 9

/-- Black rook piece code. -/
def BR : Nat := 10

/-- Black queen piece code. -/
def BQ : Nat := 11

/-- Black king piece code. -/
def BK : Nat := 12

/-- Modelled from the spec: the `PIECE_COL` classification table of the missing
`lookups.rs` — white pieces 1..6 map to `White`, black pieces 7..12 to
`Black`, everything else (empty) to `Both`. -/
def piece_col (p : Nat) : Nat :=
  if 1 ≤ p ∧ p ≤ 6 then WHITE else if 7 ≤ p ∧ p ≤ 12 then BLACK else COLOUR_BOTH

/-- Modelled from the spec: `validate.rs`'s `square_on_board` — on the guarded
10x12 board the playing area is the cells whose file digit (`sq mod 10`) is
1..8 and whose row (`sq div 10`) is 2..9, i.e. `21 + file + 10 * rank`. -/
def square_on_board (sq : Nat) : Bool :=
  decide (1 ≤ sq % 10 ∧ sq % 10 ≤ 8 ∧ 2 ≤ sq / 10 ∧ sq / 10 ≤ 9)

/-- Modelled from the spec: the `RANKS_BOARD` table — the 0-based rank of an
on-board cell (`Rank1 = 0` .. `Rank8 = 7`). -/
def RANKS_BOARD (sq : Nat) : Nat := sq / 10 - 2

/-- Rank constant `Rank::Rank2 as usize`. -/
def RANK_2 : Nat := 1

/-- Rank constant `Rank::Rank7 as usize`. -/
def RANK_7 : Nat := 6

/-- Modelled from the spec: the opaque packed move value of the missing
`chessmove.rs`, exposed through its accessors (spec section 6): origin,
destination, captured piece (or none), promotion piece (or none), and the
special-move flag bits. -/
structure Move where
  fromSq : Nat
  toSq : Nat
  capture : Nat
  promotion : Nat
  flags : Nat
deriving DecidableEq, Repr

/-- The en-passant flag bit of a move. -/
def Move.EP_MASK : Nat := 1

/-- The double-pawn-push flag bit of a move. -/
def Move.PAWN_START_MASK : Nat := 2

/-- The castling flag bit of a move. -/
def Move.CASTLE_MASK : Nat := 4

/-- `Move::new(from, to, capture, promotion, flags)`. -/
def Move.new (f t cap promo fl : Nat) : Move := ⟨f, t, cap, promo, fl⟩

/-- The distinguished null-move sentinel (`Move::NULL`, the all-zero move). -/
def Move.NULL : Move := ⟨0, 0, 0, 0, 0⟩

/-- `Move::is_null` — comparison with the null sentinel. -/
def Move.is_null (m : Move) : Bool := m == Move.NULL

/-- `Move::is_ep` — the en-passant flag bit is set. -/
def Move.is_ep (m : Move) : Bool := m.flags % 2 == 1

/-- The fields of `Board` (src/board.rs) that the move generator and the hash
derivation read.  `pieces` is the 120-cell grid, `p_list`/`piece_num` the
per-piece square lists, `side`/`ep_sq`/`castle_perm` the scalar state. -/
structure Board where
  pieces : Nat → Nat
  side : Nat
  ep_sq : Nat
  castle_perm : Nat
  piece_num : Nat → Nat
  p_list : Nat → Nat → Nat

/-- `Board::add_pawn_cap_move::<SIDE>` (src/board.rs:529): a pawn capture from
the promotion rank is expanded into the four promotion captures, otherwise a
single capture move is emitted. -/
def add_pawn_cap_move (side f t cap : Nat) : List Move :=
  let promo_rank := if side = WHITE then RANK_7 else RANK_2
  if RANKS_BOARD f = promo_rank then
    if side = WHITE then
      [WQ, WN, WR, WB].map (fun promo => Move.new f t cap promo 0)
    else
      [BQ, BN, BR, BB].map (fun promo => Move.new f t cap promo 0)
  else
    [Move.new f t cap PIECE_EMPTY 0]

/-- `Board::add_pawn_move::<SIDE>` (src/board.rs:569): a quiet pawn push,
expanded into the four promotions when moving off the promotion rank. -/
def add_pawn_move (side f t : Nat) : List Move :=
  let promo_rank := if side = WHITE then RANK_7 else RANK_2
  if RANKS_BOARD f = promo_rank then
    if side = WHITE then
      [WQ, WN, WR, WB].map (fun promo => Move.new f t PIECE_EMPTY promo 0)
    else
      [BQ, BN, BR, BB].map (fun promo => Move.new f t PIECE_EMPTY promo 0)
  else
    [Move.new f t PIECE_EMPTY PIECE_EMPTY 0]

/-- `Board::generate_pawn_caps::<SIDE>` (src/board.rs:611): for both the left
and right diagonal target, the source tests `square_on_board` and then
`PIECE_COL[pieces[target]] == Colour::Black` — the literal `Colour::Black`
for either value of `SIDE`. -/
def generate_pawn_caps (side : Nat) (b : Board) (sq : Nat) : List Move :=
  let left_sq := if side = WHITE then sq + 9 else sq - 9
  let right_sq := if side = WHITE then sq + 11 else sq - 11
  (if square_on_board left_sq ∧ piece_col (b.pieces left_sq) = BLACK then
    add_pawn_cap_move side sq left_sq (b.pieces left_sq)
  else []) ++
  (if square_on_board right_sq ∧ piece_col (b.pieces right_sq) = BLACK then
    add_pawn_cap_move side sq right_sq (b.pieces right_sq)
  else [])

/-- `Board::generate_ep::<SIDE>` (src/board.rs:626): each fixed-offset diagonal
candidate is compared directly with `ep_sq`; no on-board check guards the
comparison (the source comments "this has a bug because epsq can be 99 as a
default"). -/
def generate_ep (side : Nat) (b : Board) (sq : Nat) : List Move :=
  let left_sq := if side = WHITE then sq + 9 else sq - 9
  let right_sq := if side = WHITE then sq + 11 else sq - 11
  (if left_sq = b.ep_sq then
    [Move.new sq left_sq PIECE_EMPTY PIECE_EMPTY Move.EP_MASK]
  else []) ++
  (if right_sq = b.ep_sq then
    [Move.new sq right_sq PIECE_EMPTY PIECE_EMPTY Move.EP_MASK]
  else [])

/-- `Board::generate_pawn_forward::<SIDE>` (src/board.rs:656).  (The source
tests the cell `sq + 10` for emptiness for either value of `SIDE`.) -/
def generate_pawn_forward (side : Nat) (b : Board) (sq : Nat) : List Move :=
  let start_rank := if side = WHITE then RANK_2 else RANK_7
  let offset_sq := if side = WHITE then sq + 10 else sq - 10
  if b.pieces (sq + 10) = PIECE_EMPTY then
    add_pawn_move side sq offset_sq ++
    (let double_sq := if side = WHITE then sq + 20 else sq - 20
     if RANKS_BOARD sq = start_rank ∧ b.pieces double_sq = PIECE_EMPTY then
       [Move.new sq double_sq PIECE_EMPTY PIECE_EMPTY Move.PAWN_START_MASK]
     else [])
  else []

/-- The pawn section of `Board::generate_all_moves` (src/board.rs:690-707):
for each pawn of the side to move, forward pushes, diagonal captures and
en-passant candidates are emitted in that order; the emitted moves flow into
the move list unconditionally. -/
def generate_all_pawn_moves (b : Board) : List Move :=
  if b.side = WHITE then
    (List.range (b.piece_num WP)).flatMap (fun i =>
      let sq := b.p_list WP i
      generate_pawn_forward WHITE b sq ++ generate_pawn_caps WHITE b sq ++
        generate_ep WHITE b sq)
  else
    (List.range (b.piece_num BP)).flatMap (fun i =>
      let sq := b.p_list BP i
      generate_pawn_forward BLACK b sq ++ generate_pawn_caps BLACK b sq ++
        generate_ep BLACK b sq)

/-- Modelled from the spec: the Zobrist constant tables of the missing
`lookups.rs` (spec section 4.2) — one constant per (piece, square), one side
constant, one constant per castling bitmask; kept abstract as a structure of
tables. -/
structure Zobrist where
  piece_keys : Nat → Nat → Nat
  side_key : Nat
  castle_keys : Nat → Nat

/-- `Board::generate_pos_key` (src/board.rs:76): xor the (piece, square)
constant of every cell holding a real piece, the side constant when white is
to move, the en-passant constant whenever `ep_sq != 0`, and the castling
constant. -/
def generate_pos_key (z : Zobrist) (b : Board) : Nat :=
  let key := (List.range BOARD_N_SQUARES).foldl
    (fun key sq =>
      let piece := b.pieces sq
      if piece ≠ PIECE_EMPTY ∧ piece ≠ OFF_BOARD ∧ piece ≠ NO_SQUARE then
        key ^^^ z.piece_keys piece sq
      else key) 0
  let key := if b.side = WHITE then key ^^^ z.side_key else key
  let key := if b.ep_sq ≠ 0 then key ^^^ z.piece_keys PIECE_EMPTY b.ep_sq else key
  key ^^^ z.castle_keys b.castle_perm

/-- Follows the spec's words (section 4.2), for comparison with
`generate_pos_key`: the en-passant constant is included "only when an
en-passant target is set", i.e. only when `ep_sq` is not the `NoSquare`
sentinel. -/
def generate_pos_key_spec (z : Zobrist) (b : Board) : Nat :=
  let key := (List.range BOARD_N_SQUARES).foldl
    (fun key sq =>
      let piece := b.pieces sq
      if piece ≠ PIECE_EMPTY ∧ piece ≠ OFF_BOARD ∧ piece ≠ NO_SQUARE then
        key ^^^ z.piece_keys piece sq
      else key) 0
  let key := if b.side = WHITE then key ^^^ z.side_key else key
  let key := if b.ep_sq ≠ NO_SQUARE then key ^^^ z.piece_keys PIECE_EMPTY b.ep_sq else key
  key ^^^ z.castle_keys b.castle_perm

/-- A board holding only a black pawn on d4 (cell 54) and a black knight on
c3 (cell 43), black to move, no en-passant target. -/
def c1_board : Board where
  pieces := fun sq =>
    if sq = 54 then BP else if sq = 43 then BN
    else if square_on_board sq then PIECE_EMPTY else OFF_BOARD
  side := BLACK
  ep_sq := NO_SQUARE
  castle_perm := 0
  piece_num := fun p => if p = BP then 1 else 0
  p_list := fun p i => if p = BP ∧ i = 0 then 54 else 0

/-- As `c1_board`, but the piece on c3 (cell 43) is a white knight. -/
def c1_board_white_target : Board where
  pieces := fun sq =>
    if sq = 54 then BP else if sq = 43 then WN
    else if square_on_board sq then PIECE_EMPTY else OFF_BOARD
  side := BLACK
  ep_sq := NO_SQUARE
  castle_perm := 0
  piece_num := fun p => if p = BP then 1 else 0
  p_list := fun p i => if p = BP ∧ i = 0 then 54 else 0

/-- An empty board, white to move, no en-passant target, no castling rights. -/
def c2_board : Board where
  pieces := fun sq => if square_on_board sq then PIECE_EMPTY else OFF_BOARD
  side := WHITE
  ep_sq := NO_SQUARE
  castle_perm := 0
  piece_num := fun _ => 0
  p_list := fun _ _ => 0

/-- A concrete, injective-enough instantiation of the Zobrist tables. -/
def c2_zobrist : Zobrist where
  piece_keys := fun p sq => 2 + p * 128 + sq
  side_key := 1
  castle_keys := fun c => 4096 + c

/-- A board holding only a white pawn on h7 (cell 88), white to move, no
en-passant target. -/
def c3_board : Board where
  pieces := fun sq =>
    if sq = 88 then WP
    else if square_on_board sq then PIECE_EMPTY else OFF_BOARD
  side := WHITE
  ep_sq := NO_SQUARE
  castle_perm := 0
  piece_num := fun p => if p = WP then 1 else 0
  p_list := fun p i => if p = WP ∧ i = 0 then 88 else 0

/-- `Board::set_halfmove` (src/board.rs:243): the half-move field of the
board-description string is parsed as a `u8` (digits only, value at most
255); a missing field or a failed parse panics (`none`). -/
def parse_u8 (s : List Char) : Option Nat :=
  if s ≠ [] ∧ s.all Char.isDigit then
    let n := s.foldl (fun a c => a * 10 + (c.toNat - 48)) 0
    if n ≤ 255 then some n else none
  else none

/-- `Board::set_halfmove`'s outer shape: `None` for a missing field panics. -/
def set_halfmove (part : Option (List Char)) : Option Nat :=
  match part with
  | none => none
  | some s => parse_u8 s

/-- The fifty-move-clock assertion of `Board::check_validity`
(src/board.rs:426): `assert!(self.fifty_move_counter < 100)`. -/
def fifty_move_clock_ok (c : Nat) : Bool := decide (c < 100)

/-- `IS_MATE_SCORE` from src/evaluation.rs: `MATE_SCORE - 300` with
`MATE_SCORE = 3_000_000`. -/
def IS_MATE_SCORE : Int := 3000000 - 300

/-- Modelled from the spec: the `INFINITY` score bound of the missing
`definitions.rs`, some value above every mate score. -/
def INFINITY : Int := 3000001

/-- Modelled from the spec: the `MAX_DEPTH` ceiling of the missing
`definitions.rs`; the compact (one byte) depth storage bounds it by 255. -/
def MAX_DEPTH : Int := 255

/-- The bound kinds of a transposition-table entry
(src/transpositiontable.rs:15). -/
inductive HFlag where
  | N
  | Alpha
  | Beta
  | Exact
deriving DecidableEq, Repr

/-- A transposition-table entry (src/transpositiontable.rs:23).  The compact
depth storage of the missing `definitions.rs` is modelled from the spec as
the exact depth value, which the store's range guard keeps within one byte. -/
structure TTEntry where
  key : Nat
  m : Move
  score : Int
  depth : Int
  flag : HFlag
deriving DecidableEq, Repr

/-- `TTEntry::NULL` (src/transpositiontable.rs:31): zero key, null move, zero
score, null depth, bound kind none. -/
def TTEntry.NULL : TTEntry := ⟨0, Move.NULL, 0, 0, HFlag.N⟩

/-- A two-entry bucket (src/transpositiontable.rs:41). -/
structure Bucket where
  depth_preferred : TTEntry
  always_replace : TTEntry
deriving DecidableEq, Repr

/-- `Bucket::NULL`. -/
def Bucket.NULL : Bucket := ⟨TTEntry.NULL, TTEntry.NULL⟩

/-- `TranspositionTable<SIZE>` (src/transpositiontable.rs:73): the const
generic size together with the backing `Vec<Bucket>`, whose length is what
indexing checks. -/
structure TranspositionTable where
  size : Nat
  table : List Bucket
deriving DecidableEq, Repr

/-- `TranspositionTable::new`: the backing buffer starts empty. -/
def TranspositionTable.new (size : Nat) : TranspositionTable := ⟨size, []⟩

/-- `TranspositionTable::clear` (src/transpositiontable.rs:91): resize an
empty buffer to `SIZE` null buckets, otherwise fill with null buckets. -/
def TranspositionTable.clear (tt : TranspositionTable) : TranspositionTable :=
  if tt.table.isEmpty then ⟨tt.size, List.replicate tt.size Bucket.NULL⟩
  else ⟨tt.size, tt.table.map (fun _ => Bucket.NULL)⟩

/-- The store-side mate-score rebasing of `TranspositionTable::store`
(src/transpositiontable.rs:122): add the ply for above-threshold scores,
subtract it for below-negated-threshold scores. -/
def tt_store_score (score : Int) (ply : Nat) : Int :=
  if IS_MATE_SCORE < score then score + ply
  else if score < -IS_MATE_SCORE then score - ply
  else score

/-- `TranspositionTable::store` (src/transpositiontable.rs:107): index by
`key mod SIZE` (out-of-bounds indexing panics, `none`), rebase the score,
convert the depth to compact storage (`unwrap` panics outside 0..=255,
`none`), then overwrite the depth-preferred slot when the incoming depth is
at least its depth and the always-replace slot otherwise. -/
def TranspositionTable.store (tt : TranspositionTable) (key ply : Nat)
    (best_move : Move) (score : Int) (flag : HFlag) (depth : Int) :
    Option TranspositionTable :=
  let index := key % tt.size
  let score := tt_store_score score ply
  match tt.table.get? index with
  | none => none
  | some slot =>
    if 0 ≤ depth ∧ depth ≤ MAX_DEPTH then
      let entry : TTEntry := ⟨key, best_move, score, depth, flag⟩
      if slot.depth_preferred.depth ≤ depth then
        some ⟨tt.size, tt.table.set index { slot with depth_preferred := entry }⟩
      else
        some ⟨tt.size, tt.table.set index { slot with always_replace := entry }⟩
    else none

/-- The probe-side mate-score de-rebasing of `TranspositionTable::probe`
(src/transpositiontable.rs:176). -/
def tt_probe_score (score : Int) (ply : Nat) : Int :=
  if IS_MATE_SCORE < score then score - ply
  else if score < -IS_MATE_SCORE then score + ply
  else score

/-- The result of a probe (src/transpositiontable.rs:80). -/
inductive ProbeResult where
  | Cutoff : Int → ProbeResult
  | BestMove : Move → ProbeResult
  | Nothing
deriving DecidableEq, Repr

/-- `TranspositionTable::probe` (src/transpositiontable.rs:146): index by
`key mod SIZE` (out-of-bounds indexing panics, `none`); when either slot's
key equals the probed key, take the depth-preferred slot first; with enough
stored depth resolve by bound kind (the `HFlag::None` arm is the fatal
`inconceivable!` marker, `none`), else fall back to the stored move. -/
def TranspositionTable.probe (tt : TranspositionTable) (key ply : Nat)
    (alpha beta : Int) (depth : Int) : Option ProbeResult :=
  let index := key % tt.size
  match tt.table.get? index with
  | none => none
  | some slot =>
    let e1 := slot.depth_preferred
    let e2 := slot.always_replace
    if e1.key = key ∨ e2.key = key then
      let entry := if e1.key = key then e1 else e2
      let m := entry.m
      if depth ≤ entry.depth then
        let score := tt_probe_score entry.score ply
        match entry.flag with
        | HFlag.N => none
        | HFlag.Alpha =>
          if score ≤ alpha then some (ProbeResult.Cutoff alpha)
          else some (ProbeResult.BestMove m)
        | HFlag.Beta =>
          if beta ≤ score then some (ProbeResult.Cutoff beta)
          else some (ProbeResult.BestMove m)
        | HFlag.Exact => some (ProbeResult.Cutoff score)
      else some (ProbeResult.BestMove m)
    else some ProbeResult.Nothing

/-- `pslots()` from src/historytable.rs with `DO_COLOUR_DIFFERENTIATION`
set: 12 piece slots. -/
def pslots : Nat := 12

/-- `piece_index` = `coloured_piece_index` (src/historytable.rs:17):
`piece - 1`. -/
def piece_index (p : Nat) : Nat := p - 1

/-- `HistoryTable` (src/historytable.rs:31): a boxed slice of
per-piece-slot rows of `BOARD_N_SQUARES` scores; `Default` starts empty. -/
structure HistoryTable where
  table : List (List Int)
deriving DecidableEq, Repr

/-- `HistoryTable::new` = `Self::default()`: the empty boxed slice. -/
def HistoryTable.new : HistoryTable := ⟨[]⟩

/-- `HistoryTable::clear` (src/historytable.rs:40): allocate
`pslots` x `BOARD_N_SQUARES` zeroes when empty, otherwise zero in place. -/
def HistoryTable.clear (t : HistoryTable) : HistoryTable :=
  if t.table.isEmpty then ⟨List.replicate pslots (List.replicate BOARD_N_SQUARES 0)⟩
  else ⟨t.table.map (fun row => row.map (fun _ => 0))⟩

/-- `HistoryTable::add` (src/historytable.rs:52): indexes
`table[piece_index piece][sq]` (panics out of bounds, `none`). -/
def HistoryTable.add (t : HistoryTable) (piece sq : Nat) (score : Int) :
    Option HistoryTable :=
  match t.table.get? (piece_index piece) with
  | none => none
  | some row =>
    match row.get? sq with
    | none => none
    | some v => some ⟨t.table.set (piece_index piece) (row.set sq (v + score))⟩

/-- `HistoryTable::get` (src/historytable.rs:57). -/
def HistoryTable.get (t : HistoryTable) (piece sq : Nat) : Option Int :=
  match t.table.get? (piece_index piece) with
  | none => none
  | some row => row.get? sq

/-- `DoubleHistoryTable` (src/historytable.rs:107): one flattened vector,
`Default` starts empty. -/
structure DoubleHistoryTable where
  table : List Int
deriving DecidableEq, Repr

/-- Index stride `I1 = BOARD_N_SQUARES * pslots() * BOARD_N_SQUARES`. -/
def DoubleHistoryTable.I1 : Nat := BOARD_N_SQUARES * pslots * BOARD_N_SQUARES

/-- Index stride `I2 = BOARD_N_SQUARES * pslots()`. -/
def DoubleHistoryTable.I2 : Nat := BOARD_N_SQUARES * pslots

/-- Index stride `I3 = BOARD_N_SQUARES`. -/
def DoubleHistoryTable.I3 : Nat := BOARD_N_SQUARES

/-- `DoubleHistoryTable::new` = `Self::default()`: the empty vector. -/
def DoubleHistoryTable.new : DoubleHistoryTable := ⟨[]⟩

/-- `DoubleHistoryTable::clear` (src/historytable.rs:120). -/
def DoubleHistoryTable.clear (t : DoubleHistoryTable) : DoubleHistoryTable :=
  if t.table.isEmpty then
    ⟨List.replicate (BOARD_N_SQUARES * pslots * BOARD_N_SQUARES * pslots) 0⟩
  else ⟨t.table.map (fun _ => 0)⟩

/-- The flattened index used by `DoubleHistoryTable::add`/`get`. -/
def DoubleHistoryTable.idx (p1 sq1 p2 sq2 : Nat) : Nat :=
  piece_index p1 * DoubleHistoryTable.I1 + piece_index p2 * DoubleHistoryTable.I2 +
    sq1 * DoubleHistoryTable.I3 + sq2

/-- `DoubleHistoryTable::add` (src/historytable.rs:128): indexes the
flattened vector (panics out of bounds, `none`). -/
def DoubleHistoryTable.add (t : DoubleHistoryTable) (p1 sq1 p2 sq2 : Nat)
    (score : Int) : Option DoubleHistoryTable :=
  let i := DoubleHistoryTable.idx p1 sq1 p2 sq2
  match t.table.get? i with
  | none => none
  | some v => some ⟨t.table.set i (v + score)⟩

/-- `DoubleHistoryTable::get` (src/historytable.rs:137). -/
def DoubleHistoryTable.get (t : DoubleHistoryTable) (p1 sq1 p2 sq2 : Nat) :
    Option Int :=
  t.table.get? (DoubleHistoryTable.idx p1 sq1 p2 sq2)

/-- `MoveTable` (src/historytable.rs:187): one flattened vector of moves,
constructed empty. -/
structure MoveTable where
  table : List Move
deriving DecidableEq, Repr

/-- `MoveTable::new`: the empty vector. -/
def MoveTable.new : MoveTable := ⟨[]⟩

/-- `MoveTable::clear` (src/historytable.rs:198). -/
def MoveTable.clear (t : MoveTable) : MoveTable :=
  if t.table.isEmpty then ⟨List.replicate (BOARD_N_SQUARES * pslots) Move.NULL⟩
  else ⟨t.table.map (fun _ => Move.NULL)⟩

/-- `MoveTable::add` (src/historytable.rs:206): indexes
`piece_index piece * BOARD_N_SQUARES + sq` (panics out of bounds, `none`). -/
def MoveTable.add (t : MoveTable) (piece sq : Nat) (mv : Move) : Option MoveTable :=
  let i := piece_index piece * BOARD_N_SQUARES + sq
  match t.table.get? i with
  | none => none
  | some _ => some ⟨t.table.set i mv⟩

/-- `MoveTable::get` (src/historytable.rs:212). -/
def MoveTable.get (t : MoveTable) (piece sq : Nat) : Option Move :=
  t.table.get? (piece_index piece * BOARD_N_SQUARES + sq)

/-- Modelled from the spec: the reversible move-history record (spec section
3) of the missing `definitions.rs` — the move applied plus the prior
en-passant target, castling rights, half-move clock and hash key. -/
structure Undo where
  m : Move
  castle_perm : Nat
  ep_sq : Nat
  fifty_move_counter : Nat
  key : Nat
deriving DecidableEq, Repr

/-- The fields of the `Board` of src/board/history.rs that the follow-up
history functions read: the grid (for `piece_at`/`moved_piece`), the move
history list, and the follow-up history table. -/
structure HistBoard where
  pieces : Nat → Nat
  history : List Undo
  followup_history : DoubleHistoryTable

/-- `Board::piece_at`: the grid cell at a square (modelled from the spec:
the method body is not among the sources; spec section 4.6 reads the piece
"live from the current board"). -/
def HistBoard.piece_at (b : HistBoard) (sq : Nat) : Nat := b.pieces sq

/-- `Board::moved_piece`: the piece standing on the move's origin square
(modelled from the spec, as for `piece_at`). -/
def HistBoard.moved_piece (b : HistBoard) (m : Move) : Nat := b.piece_at m.fromSq

/-- `Board::followup_history_score` (src/board/history.rs:91): return 0 when
the history holds fewer than two records or either of the two most recent
moves is null or the immediately preceding move is an en-passant capture;
otherwise resolve the two-ply-ago piece (from the capture record when the
preceding move captured on that square) and read the follow-up table
(table indexing out of bounds panics, `none`). -/
def followup_history_score (b : HistBoard) (m : Move) : Option Int :=
  if b.history.length < 2 then some 0
  else
    match b.history.get? (b.history.length - 2),
        b.history.get? (b.history.length - 1) with
    | some u2, some u1 =>
      let move_to_follow_up := u2.m
      let prev_move := u1.m
      if move_to_follow_up.is_null || prev_move.is_null || prev_move.is_ep then
        some 0
      else
        let tpa_to := move_to_follow_up.toSq
        let tpa_piece :=
          if prev_move.capture ≠ PIECE_EMPTY ∧ prev_move.toSq = tpa_to then
            prev_move.capture
          else b.piece_at tpa_to
        b.followup_history.get tpa_piece tpa_to (b.moved_piece m) m.toSq
    | _, _ => none

/-- `Board::add_followup_history` (src/board/history.rs:54): the same guards
as `followup_history_score`, returning the board unchanged when they fire,
and otherwise adding into the follow-up table. -/
def add_followup_history (b : HistBoard) (m : Move) (score : Int) :
    Option HistBoard :=
  if b.history.length < 2 then some b
  else
    match b.history.get? (b.history.length - 2),
        b.history.get? (b.history.length - 1) with
    | some u2, some u1 =>
      let move_to_follow_up := u2.m
      let prev_move := u1.m
      if move_to_follow_up.is_null || prev_move.is_null || prev_move.is_ep then
        some b
      else
        let tpa_to := move_to_follow_up.toSq
        let tpa_piece :=
          if prev_move.capture ≠ PIECE_EMPTY ∧ prev_move.toSq = tpa_to then
            prev_move.capture
          else b.piece_at tpa_to
        match b.followup_history.add tpa_piece tpa_to (b.moved_piece m) m.toSq score with
        | none => none
        | some t => some { b with followup_history := t }
    | _, _ => none

/-- A history board with an empty move-history list. -/
def c8_board : HistBoard where
  pieces := fun _ => PIECE_EMPTY
  history := []
  followup_history := DoubleHistoryTable.new

/-- A history board whose last two recorded moves are a real quiet move and
then an en-passant capture. -/
def c8_board_ep : HistBoard where
  pieces := fun _ => PIECE_EMPTY
  history :=
    [⟨Move.new 34 54 0 0 Move.PAWN_START_MASK, 0, 0, 0, 0⟩,
     ⟨Move.new 64 55 0 0 Move.EP_MASK, 0, 0, 0, 0⟩]
  followup_history := DoubleHistoryTable.new

/-- Reading any position of a replicated list below its length yields the
replicated element. -/
theorem get_opt_replicate {α : Type} (a : α) :
    ∀ (n i : Nat), i < n → (List.replicate n a).get? i = some a := by
  intro n
  induction n with
  | zero => intro i h; exact absurd h (Nat.not_lt_zero i)
  | succ k ih =>
    intro i h
    cases i with
    | zero => rfl
    | succ j =>
      have : (List.replicate (k + 1) a).get? (j + 1) = (List.replicate k a).get? j := rfl
      rw [this]
      exact ih j (Nat.lt_of_succ_lt_succ h)

/-- Reading back the position just written in a list. -/
theorem get_opt_set_self {α : Type} :
    ∀ (l : List α) (i : Nat) (a : α), i < l.length → (l.set i a).get? i = some a := by
  intro l
  induction l with
  | nil => intro i a h; exact absurd h (Nat.not_lt_zero i)
  | cons x xs ih =>
    intro i a h
    cases i with
    | zero => rfl
    | succ j => exact ih j a (Nat.lt_of_succ_lt_succ h)

/-- A successful optional read is within bounds. -/
theorem lt_length_of_get_opt {α : Type} :
    ∀ (l : List α) (i : Nat) (a : α), l.get? i = some a → i < l.length := by
  intro l
  induction l with
  | nil => intro i a h; cases h
  | cons x xs ih =>
    intro i a h
    cases i with
    | zero => exact Nat.succ_le_succ (Nat.zero_le _)
    | succ j => exact Nat.succ_lt_succ (ih j a h)

/-- The probe-side de-rebasing exactly cancels the store-side rebasing at the
same ply. -/
theorem tt_score_rebase_roundtrip (s : Int) (ply : Nat) :
    tt_probe_score (tt_store_score s ply) ply = s := by
  have hply : (0 : Int) ≤ (ply : Int) := Int.ofNat_nonneg ply
  unfold tt_store_score tt_probe_score
  by_cases h1 : IS_MATE_SCORE < s
  · rw [if_pos h1, if_pos (by omega)]
    omega
  · rw [if_neg h1]
    by_cases h2 : s < -IS_MATE_SCORE
    · have hth : (0 : Int) < IS_MATE_SCORE := by decide
      rw [if_pos h2, if_neg (by omega), if_pos (by omega)]
      omega
    · rw [if_neg h2, if_neg h1, if_neg h2]

/-- Claim C1 (code bug): `generate_pawn_caps` tests the diagonal target's
colour against the literal `Colour::Black` for both values of `SIDE`
(src/board.rs:611-624), so with black to move a pawn-capture move is emitted
exactly when the target holds a *black* piece.  On a board with a black pawn
on d4 (cell 54) and a black knight on c3 (cell 43), the black pawn "captures"
the mover's own knight, and when the knight on c3 is white no capture is
emitted at all — refuting the claim that every emitted pawn capture lands on
a piece of the side opposite to the mover. -/
theorem c1_pawn_caps_capture_own_piece :
    generate_pawn_caps BLACK c1_board 54 = [Move.new 54 43 BN PIECE_EMPTY 0] ∧
    Move.new 54 43 BN PIECE_EMPTY 0 ∈ generate_all_pawn_moves c1_board ∧
    piece_col (c1_board.pieces 43) = c1_board.side ∧
    generate_pawn_caps BLACK c1_board_white_target 54 = [] ∧
    piece_col (c1_board_white_target.pieces 43) = WHITE := by
  decide

/-- Claim C2 (code bug): `generate_pos_key` (src/board.rs:93) includes the
en-passant constant whenever `ep_sq != 0`, and the unset sentinel is
`NoSquare = 99`, not `0` — so on a board with no en-passant target the key
still xors `PIECE_KEYS[Empty][99]`, diverging from the spec-mandated
combination (`generate_pos_key_spec`) by exactly that constant. -/
theorem c2_pos_key_includes_ep_constant_when_unset :
    c2_board.ep_sq = NO_SQUARE ∧
    generate_pos_key c2_zobrist c2_board =
      generate_pos_key_spec c2_zobrist c2_board ^^^
        c2_zobrist.piece_keys PIECE_EMPTY NO_SQUARE ∧
    generate_pos_key c2_zobrist c2_board ≠
      generate_pos_key_spec c2_zobrist c2_board := by
  decide

/-- Claim C3 (code bug): with a white pawn on h7 (cell 88) the fixed-offset
right-diagonal candidate of `generate_ep` is `88 + 11 = 99`, which *is* the
`NoSquare` sentinel — so on a board whose en-passant field is unset the
generator emits an en-passant-flagged move from h7 to the sentinel cell 99
(an off-board cell), refuting the claim that the candidates can never alias
the sentinel.  The source itself comments "this has a bug because epsq can be
99 as a default". -/
theorem c3_generate_ep_emits_move_to_sentinel :
    c3_board.ep_sq = NO_SQUARE ∧
    generate_ep WHITE c3_board 88 =
      [Move.new 88 99 PIECE_EMPTY PIECE_EMPTY Move.EP_MASK] ∧
    Move.new 88 99 PIECE_EMPTY PIECE_EMPTY Move.EP_MASK ∈
      generate_all_pawn_moves c3_board ∧
    (Move.new 88 99 PIECE_EMPTY PIECE_EMPTY Move.EP_MASK).is_ep = true ∧
    square_on_board 99 = false := by
  decide

/-- The effect of `TranspositionTable::store` on the addressed bucket, as an
equation (shared by several results below). -/
theorem tt_store_eq
    (tt : TranspositionTable) (key ply : Nat) (m : Move) (score : Int)
    (flag : HFlag) (depth : Int) (bucket : Bucket)
    (hb : tt.table.get? (key % tt.size) = some bucket)
    (h0 : 0 ≤ depth) (h1 : depth ≤ MAX_DEPTH) :
    tt.store key ply m score flag depth =
      some ⟨tt.size, tt.table.set (key % tt.size)
        (if bucket.depth_preferred.depth ≤ depth then
          { depth_preferred := ⟨key, m, tt_store_score score ply, depth, flag⟩,
            always_replace := bucket.always_replace }
        else
          { depth_preferred := bucket.depth_preferred,
            always_replace := ⟨key, m, tt_store_score score ply, depth, flag⟩ })⟩ := by
  unfold TranspositionTable.store
  simp only [hb, if_pos (And.intro h0 h1)]
  by_cases hc : bucket.depth_preferred.depth ≤ depth
  · rw [if_pos hc, if_pos hc]
  · rw [if_neg hc, if_neg hc]

/-- Claim C4 (confirmed): for any table state and in-range depth, `store`
writes the new entry into the depth-preferred slot of the addressed bucket
when the incoming depth is at least that slot's depth (the always-replace
slot unchanged), and otherwise into the always-replace slot (the
depth-preferred slot unchanged) — so a shallower store after a deeper one at
the same index leaves the deep entry in the depth-preferred slot. -/
theorem c4_store_two_slot_replacement
    (tt : TranspositionTable) (key ply : Nat) (m : Move) (score : Int)
    (flag : HFlag) (depth : Int) (bucket : Bucket)
    (hb : tt.table.get? (key % tt.size) = some bucket)
    (h0 : 0 ≤ depth) (h1 : depth ≤ MAX_DEPTH) :
    tt.store key ply m score flag depth =
      some ⟨tt.size, tt.table.set (key % tt.size)
        (if bucket.depth_preferred.depth ≤ depth then
          { depth_preferred := ⟨key, m, tt_store_score score ply, depth, flag⟩,
            always_replace := bucket.always_replace }
        else
          { depth_preferred := bucket.depth_preferred,
            always_replace := ⟨key, m, tt_store_score score ply, depth, flag⟩ })⟩ :=
  tt_store_eq tt key ply m score flag depth bucket hb h0 h1

/-- Witness for C4: on a freshly cleared one-bucket table (whose
depth-preferred slot holds the null entry at depth 0), storing at depth 3
lands in the depth-preferred slot and leaves the always-replace slot null. -/
theorem c4_store_two_slot_replacement_witness :
    ((TranspositionTable.new 1).clear).table.get? (5 % 1) = some Bucket.NULL ∧
    (0 : Int) ≤ 3 ∧ (3 : Int) ≤ MAX_DEPTH ∧
    ((TranspositionTable.new 1).clear).store 5 0 Move.NULL 0 HFlag.Beta 3 =
      some ⟨1, [⟨⟨5, Move.NULL, 0, 3, HFlag.Beta⟩, TTEntry.NULL⟩]⟩ :=
  ⟨by decide, by decide, by decide, by
    have h := c4_store_two_slot_replacement ((TranspositionTable.new 1).clear)
      5 0 Move.NULL 0 HFlag.Beta 3 Bucket.NULL (by decide) (by decide) (by decide)
    exact h.trans (by decide)⟩


/-- A probe that finds a matching, sufficiently deep, `Exact` entry in the
depth-preferred slot returns `Cutoff` of the de-rebased stored score (shared
helper). -/
theorem tt_probe_exact_hit
    (tt : TranspositionTable) (key ply : Nat) (alpha beta depth : Int)
    (bucket : Bucket)
    (hb : tt.table.get? (key % tt.size) = some bucket)
    (hk : bucket.depth_preferred.key = key)
    (hd : depth ≤ bucket.depth_preferred.depth)
    (hf : bucket.depth_preferred.flag = HFlag.Exact) :
    tt.probe key ply alpha beta depth =
      some (ProbeResult.Cutoff (tt_probe_score bucket.depth_preferred.score ply)) := by
  unfold TranspositionTable.probe
  simp only [hb]
  rw [if_pos (Or.inl hk), if_pos hk, if_pos hd, hf]

/-- Claim C5 (confirmed): starting from a cleared table, storing an `Exact`
entry at ply `p` and probing the same key at the same ply with any window and
any requested depth at most the stored depth returns `Cutoff` of the original
score: the store-side mate rebasing (add the ply above the mate threshold,
subtract it below the negated threshold) is exactly cancelled by the
probe-side de-rebasing at the same ply, and non-mate scores pass through
unchanged. -/
theorem c5_tt_store_probe_roundtrip
    (size key ply : Nat) (m : Move) (s : Int) (d d2 alpha beta : Int)
    (hsize : 0 < size) (hs : -INFINITY ≤ s) (h0 : 0 ≤ d) (h1 : d ≤ MAX_DEPTH)
    (h2 : d2 ≤ d) :
    (((TranspositionTable.new size).clear).store key ply m s HFlag.Exact d).bind
      (fun tt2 => tt2.probe key ply alpha beta d2) =
      some (ProbeResult.Cutoff s) := by
  have hidx : key % size < size := Nat.mod_lt key hsize
  have hclear : (TranspositionTable.new size).clear =
      ⟨size, List.replicate size Bucket.NULL⟩ := rfl
  rw [hclear]
  have hget : (List.replicate size Bucket.NULL).get? (key % size) =
      some Bucket.NULL := get_opt_replicate _ _ _ hidx
  have hstore := tt_store_eq ⟨size, List.replicate size Bucket.NULL⟩
    key ply m s HFlag.Exact d Bucket.NULL hget h0 h1
  have hle : Bucket.NULL.depth_preferred.depth ≤ d := by
    have hz : Bucket.NULL.depth_preferred.depth = 0 := rfl
    rw [hz]; exact h0
  rw [if_pos hle] at hstore
  rw [hstore]
  simp only [Option.bind]
  have hp := tt_probe_exact_hit
    ⟨size, (List.replicate size Bucket.NULL).set (key % size)
      { depth_preferred := ⟨key, m, tt_store_score s ply, d, HFlag.Exact⟩,
        always_replace := Bucket.NULL.always_replace }⟩
    key ply alpha beta d2
    { depth_preferred := ⟨key, m, tt_store_score s ply, d, HFlag.Exact⟩,
      always_replace := Bucket.NULL.always_replace }
    (get_opt_set_self _ _ _ (by rw [List.length_replicate]; exact hidx))
    rfl h2 rfl
  exact hp.trans (by rw [tt_score_rebase_roundtrip])

/-- Witness for C5: a mate-range score (above `IS_MATE_SCORE`) stored at ply
2 and depth 3 is recovered exactly by a probe at ply 2 and depth 1. -/
theorem c5_tt_store_probe_roundtrip_witness :
    (0 : Nat) < 4 ∧ -INFINITY ≤ (2999900 : Int) ∧ (0 : Int) ≤ 3 ∧
    (3 : Int) ≤ MAX_DEPTH ∧ (1 : Int) ≤ 3 ∧
    (((TranspositionTable.new 4).clear).store 9 2 Move.NULL 2999900 HFlag.Exact 3).bind
      (fun tt2 => tt2.probe 9 2 (-5) 5 1) =
      some (ProbeResult.Cutoff 2999900) :=
  ⟨by decide, by decide, by decide, by decide, by decide,
    c5_tt_store_probe_roundtrip 4 9 2 Move.NULL 2999900 3 1 (-5) 5
      (by decide) (by decide) (by decide) (by decide) (by decide)⟩

/-- Counterexample to claim C6: probing a freshly cleared one-bucket table
with key `0` — a key that was never stored — is satisfied by the
never-written `TTEntry::NULL` slot, whose `key` field is `0`: the probe
returns the null move as a `BestMove` suggestion instead of the claimed
miss. -/
theorem c6_probe_null_slot_false_hit :
    ((TranspositionTable.new 1).clear).probe 0 0 (-1) 1 1 =
      some (ProbeResult.BestMove Move.NULL) ∧
    some (ProbeResult.BestMove Move.NULL) ≠ some ProbeResult.Nothing := by
  decide

/-- Claim C6 as amended: a probe returns the miss result `Nothing` whenever
the probed key differs from the `key` *fields* of both entries of the
addressed bucket.  Since a never-written slot holds `TTEntry::NULL`, whose
`key` field is `0`, the original guarantee additionally requires the probed
key to be nonzero: probing key `0` against a never-written slot is a false
hit (see the counterexample). -/
theorem c6_probe_key_mismatch_is_miss
    (tt : TranspositionTable) (key ply : Nat) (alpha beta depth : Int)
    (bucket : Bucket)
    (hb : tt.table.get? (key % tt.size) = some bucket)
    (h1 : bucket.depth_preferred.key ≠ key)
    (h2 : bucket.always_replace.key ≠ key) :
    tt.probe key ply alpha beta depth = some ProbeResult.Nothing := by
  unfold TranspositionTable.probe
  simp only [hb]
  rw [if_neg (not_or.mpr ⟨h1, h2⟩)]

/-- Witness for the amended C6: probing key 5 against a cleared (all-null)
one-bucket table misses. -/
theorem c6_probe_key_mismatch_is_miss_witness :
    Bucket.NULL.depth_preferred.key ≠ 5 ∧
    ((TranspositionTable.new 1).clear).probe 5 0 (-1) 1 1 =
      some ProbeResult.Nothing :=
  ⟨by decide,
    c6_probe_key_mismatch_is_miss ((TranspositionTable.new 1).clear) 5 0 (-1) 1 1
      Bucket.NULL (by decide) (by decide) (by decide)⟩

/-- Claim C7 (confirmed): when a probe finds an entry whose stored key
matches (the depth-preferred slot being preferred when both match) but whose
stored depth is strictly shallower than the requested depth, the result is
`BestMove` carrying that entry's move — never a `Cutoff`, for every bound
kind, score, alpha and beta. -/
theorem c7_probe_shallow_hit_returns_best_move
    (tt : TranspositionTable) (key ply : Nat) (alpha beta depth : Int)
    (bucket : Bucket)
    (hb : tt.table.get? (key % tt.size) = some bucket)
    (hk : bucket.depth_preferred.key = key ∨ bucket.always_replace.key = key)
    (hd : (if bucket.depth_preferred.key = key then bucket.depth_preferred
      else bucket.always_replace).depth < depth) :
    tt.probe key ply alpha beta depth =
      some (ProbeResult.BestMove
        (if bucket.depth_preferred.key = key then bucket.depth_preferred
          else bucket.always_replace).m) := by
  unfold TranspositionTable.probe
  simp only [hb]
  rw [if_pos hk, if_neg (not_le.mpr hd)]

/-- Witness for C7: a bucket holding a matching `Exact` entry stored at depth
2 is probed at depth 3; only its move comes back. -/
theorem c7_probe_shallow_hit_returns_best_move_witness :
    (Bucket.mk ⟨5, Move.new 21 31 0 0 0, 7, 2, HFlag.Exact⟩ TTEntry.NULL).depth_preferred.key = 5 ∧
    (TranspositionTable.mk 1
        [Bucket.mk ⟨5, Move.new 21 31 0 0 0, 7, 2, HFlag.Exact⟩ TTEntry.NULL]).probe
        5 0 (-1) 1 3 =
      some (ProbeResult.BestMove (Move.new 21 31 0 0 0)) :=
  ⟨by decide, by
    have h := c7_probe_shallow_hit_returns_best_move
      (TranspositionTable.mk 1
        [Bucket.mk ⟨5, Move.new 21 31 0 0 0, 7, 2, HFlag.Exact⟩ TTEntry.NULL])
      5 0 (-1) 1 3
      (Bucket.mk ⟨5, Move.new 21 31 0 0 0, 7, 2, HFlag.Exact⟩ TTEntry.NULL)
      (by decide) (Or.inl (by decide)) (by decide)
    exact h.trans (by decide)⟩

/-- Claim C8 (confirmed): whenever the move-history list holds fewer than two
records, or either of the two most recent recorded moves is the null move, or
the immediately preceding move is flagged as an en-passant capture,
`followup_history_score` returns the default score 0 and
`add_followup_history` leaves the board (and its follow-up table) entirely
unchanged. -/
theorem c8_followup_history_guards
    (b : HistBoard) (m : Move) (score : Int)
    (h : b.history.length < 2 ∨
      ∃ u2 u1, b.history.get? (b.history.length - 2) = some u2 ∧
        b.history.get? (b.history.length - 1) = some u1 ∧
        (u2.m.is_null = true ∨ u1.m.is_null = true ∨ u1.m.is_ep = true)) :
    followup_history_score b m = some 0 ∧
    add_followup_history b m score = some b := by
  by_cases hlen : b.history.length < 2
  · constructor
    · unfold followup_history_score
      rw [if_pos hlen]
    · unfold add_followup_history
      rw [if_pos hlen]
  · rcases h with h | ⟨u2, u1, h2, h1, hg⟩
    · exact absurd h hlen
    · have hguard : (u2.m.is_null || u1.m.is_null || u1.m.is_ep) = true := by
        rcases hg with hg | hg | hg <;> simp [hg]
      constructor
      · unfold followup_history_score
        rw [if_neg hlen]
        simp only [h2, h1]
        rw [if_pos hguard]
      · unfold add_followup_history
        rw [if_neg hlen]
        simp only [h2, h1]
        rw [if_pos hguard]

/-- Witness for C8: a board whose last two recorded moves are a real double
pawn push followed by an en-passant capture — the guards fire and the
follow-up machinery is skipped. -/
theorem c8_followup_history_guards_witness :
    followup_history_score c8_board_ep Move.NULL = some 0 ∧
    add_followup_history c8_board_ep Move.NULL 5 = some c8_board_ep :=
  c8_followup_history_guards c8_board_ep Move.NULL 5
    (Or.inr ⟨⟨Move.new 34 54 0 0 Move.PAWN_START_MASK, 0, 0, 0, 0⟩,
      ⟨Move.new 64 55 0 0 Move.EP_MASK, 0, 0, 0, 0⟩,
      rfl, rfl, Or.inr (Or.inr rfl)⟩)

/-- Claim C9 (code bug): the half-move field "100" is accepted by
`set_halfmove` (any `u8` parses), producing a fifty-move counter of 100 —
which falsifies `check_validity`'s own clock assertion
`fifty_move_counter < 100`, so the populated state violates invariant 8. -/
theorem c9_halfmove_100_accepted_violates_clock_assertion :
    set_halfmove (some ['1', '0', '0']) = some 100 ∧
    fifty_move_clock_ok 100 = false := by
  decide

/-- Claim C10 (confirmed): every table is constructed with an empty backing
buffer and allocated only by `clear`: on a never-cleared table, `store`,
`probe`, `add` and `get` all hit out-of-bounds indexing (the panic, modelled
as `none`) instead of returning a miss or a zero, while `clear` resizes the
buffer to its proper capacity. -/
theorem c10_tables_panic_before_clear :
    (∀ n, (TranspositionTable.new n).table = []) ∧
    (∀ n key ply mv s flag d,
      (TranspositionTable.new n).store key ply mv s flag d = none) ∧
    (∀ n key ply alpha beta d,
      (TranspositionTable.new n).probe key ply alpha beta d = none) ∧
    HistoryTable.new.table = [] ∧
    (∀ p sq s, HistoryTable.new.add p sq s = none) ∧
    (∀ p sq, HistoryTable.new.get p sq = none) ∧
    DoubleHistoryTable.new.table = [] ∧
    (∀ p1 sq1 p2 sq2 s, DoubleHistoryTable.new.add p1 sq1 p2 sq2 s = none) ∧
    (∀ p1 sq1 p2 sq2, DoubleHistoryTable.new.get p1 sq1 p2 sq2 = none) ∧
    MoveTable.new.table = [] ∧
    (∀ p sq mv, MoveTable.new.add p sq mv = none) ∧
    (∀ p sq, MoveTable.new.get p sq = none) ∧
    (∀ n, ((TranspositionTable.new n).clear).table.length = n) ∧
    HistoryTable.new.clear.table.length = pslots ∧
    DoubleHistoryTable.new.clear.table.length =
      BOARD_N_SQUARES * pslots * BOARD_N_SQUARES * pslots ∧
    MoveTable.new.clear.table.length = BOARD_N_SQUARES * pslots := by
  refine ⟨fun n => rfl, fun n key ply mv s flag d => rfl,
    fun n key ply alpha beta d => rfl, rfl, fun p sq s => rfl, fun p sq => rfl,
    rfl, fun p1 sq1 p2 sq2 s => rfl, fun p1 sq1 p2 sq2 => rfl, rfl,
    fun p sq mv => rfl, fun p sq => rfl, ?_, ?_, ?_, ?_⟩
  · intro n
    simp [TranspositionTable.clear, TranspositionTable.new]
  · simp [HistoryTable.clear, HistoryTable.new]
  · simp [DoubleHistoryTable.clear, DoubleHistoryTable.new]
  · simp [MoveTable.clear, MoveTable.new]
